import Mathlib

/-!
Verification development for the cursor-auto-register repository.

Shallow embedding of three Python modules:
  * `src/tokenManager/cursor.py` — remote usage client (`Cursor` class),
  * `src/database.py`            — persistence-layer lifecycle helpers,
  * `src/reset_machine.py`       — machine-identity rewriter.

JSON values and Python dictionaries are modelled as inductive values and
association lists (Python dictionaries preserve insertion order and have
unique keys; `json.load` already collapses duplicate keys, keeping the last).
HTTP I/O is abstracted away: client operations are modelled as pure
functions of the parsed JSON response body; observable effects of the
lifecycle helpers are modelled as traces of events.  Python exceptions are
modelled with `Except String` where the source can raise.
-/

namespace CursorAutoRegister

/-- A JSON value as produced by Python's `json.load` / `response.json()`.
Numbers are modelled as integers (the usage counters handled by this
repository are integral).  Objects are insertion-ordered association lists,
mirroring Python dictionaries. -/
inductive JVal where
  | jnull : JVal
  | jbool : Bool → JVal
  | jnum : Int → JVal
  | jstr : String → JVal
  | jarr : List JVal → JVal
  | jobj : List (String × JVal) → JVal

/-- Key lookup in a Python dictionary modelled as an association list
(first match; keys are unique in dictionaries produced by `json.load`). -/
def dictGet {α : Type} (d : List (String × α)) (k : String) : Option α :=
  (d.find? (fun p => p.1 = k)).map (fun p => p.2)

/-- Store `v` under `k` in a Python dictionary: replace the value in place
when the key is present (keeping its position), append a new entry
otherwise — the per-key behaviour of `dict.update`. -/
def setKey {α : Type} : List (String × α) → String → α → List (String × α)
  | [], k, v => [(k, v)]
  | (a, b) :: t, k, v => if a = k then (k, v) :: t else (a, b) :: setKey t k v

/-- Python's `d.update(new)`: store each entry of `new`, in order, into `d`. -/
def dictUpdate {α : Type} (d new : List (String × α)) : List (String × α) :=
  new.foldl (fun acc kv => setKey acc kv.1 kv.2) d

/-- `cs.startsWithChars p` — does the character list `cs` start with `p`? -/
def startsWithChars : List Char → List Char → Bool
  | [], _ => true
  | _ :: _, [] => false
  | p :: ps, c :: cs => p = c && startsWithChars ps cs

/-- Substring containment test: does `s` contain `pat` as a contiguous
substring?  Models the Python expression `pat in s` for strings. -/
def containsSubstringAux (pat : List Char) : List Char → Bool
  | [] => startsWithChars pat []
  | c :: cs => startsWithChars pat (c :: cs) || containsSubstringAux pat cs

/-- String version of substring containment (`pat in s` in Python). -/
def containsSubstring (s pat : String) : Bool :=
  containsSubstringAux pat.toList s.toList

/-- Python's membership test `needle in v` for the values that can appear in
a JSON document: key membership for dictionaries, substring containment for
strings, element membership for lists; for the remaining values Python
raises `TypeError` (argument not iterable). -/
def pyIn (needle : String) : JVal → Except String Bool
  | JVal.jobj kvs => Except.ok (kvs.any (fun p => p.1 = needle))
  | JVal.jstr s => Except.ok (containsSubstring s needle)
  | JVal.jarr xs =>
    Except.ok (xs.any (fun x => match x with
      | JVal.jstr s => s = needle
      | _ => false))
  | _ => Except.error "TypeError: argument is not iterable"

/-- Python subtraction `a - b` on values taken from a JSON document:
defined on numbers (and booleans, which are integers in Python); every
other operand combination raises `TypeError`. -/
def pySub : JVal → JVal → Except String Int
  | JVal.jnum a, JVal.jnum b => Except.ok (a - b)
  | JVal.jbool a, JVal.jnum b => Except.ok ((if a then 1 else 0) - b)
  | JVal.jnum a, JVal.jbool b => Except.ok (a - (if b then 1 else 0))
  | JVal.jbool a, JVal.jbool b => Except.ok ((if a then 1 else 0) - (if b then 1 else 0))
  | _, _ => Except.error "TypeError: unsupported operand types for subtraction"

namespace Cursor

/-- Percent-encoding of a single byte, as used in URL encoding
(`':'` encodes to `"%3A"`). -/
def percentEncodeByte (n : Nat) : String :=
  let hexDigit : Nat → Char := fun d =>
    if d < 10 then Char.ofNat (48 + d) else Char.ofNat (55 + d)
  String.mk ['%', hexDigit (n / 16 % 16), hexDigit (n % 16)]

/-- Percent-encoding of a character (for the ASCII range relevant here). -/
def percentEncodeChar (c : Char) : String :=
  percentEncodeByte c.toNat

/-- The `Cookie` header value both client operations send:
`f"WorkosCursorSessionToken={user}%3A%3A{token}"` from the source. -/
def sessionCookie (user token : String) : String :=
  "WorkosCursorSessionToken=" ++ user ++ "%3A%3A" ++ token

/-- Request headers of `Cursor.get_remaining_balance` (source lines 50–53). -/
def usageRequestHeaders (user token : String) : List (String × String) :=
  [("Content-Type", "application/json"),
   ("Cookie", sessionCookie user token)]

/-- Request headers of `Cursor.get_trial_remaining_days` (source lines 88–91). -/
def stripeRequestHeaders (user token : String) : List (String × String) :=
  [("Content-Type", "application/json"),
   ("Cookie", sessionCookie user token)]

/-- `Cursor.get_remaining_balance`, modelled as a function of the parsed
JSON response body.  Mirrors the source:
`usage = response.json().get("gpt-4", None)`; return `None` when
`usage is None or "maxRequestUsage" not in usage or "numRequests" not in usage`;
otherwise return `usage["maxRequestUsage"] - usage["numRequests"]`.
A body that is not a JSON object makes `.get` raise `AttributeError`. -/
def get_remaining_balance (body : JVal) : Except String (Option Int) :=
  match body with
  | JVal.jobj d =>
    match (dictGet d "gpt-4").getD JVal.jnull with
    | JVal.jnull => Except.ok none
    | u =>
      match pyIn "maxRequestUsage" u with
      | Except.error e => Except.error e
      | Except.ok hasMax =>
        if !hasMax then
          Except.ok none
        else
          match pyIn "numRequests" u with
          | Except.error e => Except.error e
          | Except.ok hasNum =>
            if !hasNum then
              Except.ok none
            else
              match u with
              | JVal.jobj uo =>
                match pySub ((dictGet uo "maxRequestUsage").getD JVal.jnull)
                    ((dictGet uo "numRequests").getD JVal.jnull) with
                | Except.error e => Except.error e
                | Except.ok r => Except.ok (some r)
              | _ => Except.error "TypeError: value is not subscriptable"
  | _ => Except.error "AttributeError: object has no attribute get"

/-- `Cursor.get_trial_remaining_days`, modelled as a function of the parsed
JSON response body: `response.json().get("daysRemainingOnTrial", None)`. -/
def get_trial_remaining_days (body : JVal) : Except String (Option JVal) :=
  match body with
  | JVal.jobj d => Except.ok (dictGet d "daysRemainingOnTrial")
  | _ => Except.error "AttributeError: object has no attribute get"

end Cursor

namespace Database

/-- Observable actions of the persistence-layer helpers.  Log calls are
events too, so that claims about logging are statements about the trace. -/
inductive Event where
  | createEngine
  | createSession
  | execCheck
  | runBody
  | logSessionError
  | rollback
  | logRollbackError
  | close
  | logCloseError
  | dispose
  | logDisposeError
  | createAll
  | logInitSuccess
  | logInitError
deriving DecidableEq

/-- A Python block, abstracted: the events it emits and the exception (if
any) escaping it.  Exceptions are identified by `String` messages. -/
abbrev Block := List Event × Option String

/-- Sequential composition of blocks: when the first raises, the second
never runs (Python statement sequencing). -/
def pyThen (a b : Block) : Block :=
  match a with
  | (evs, none) => (evs ++ b.1, b.2)
  | (evs, some e) => (evs, some e)

/-- One fallible call: the attempt is an event; `outcome` says whether the
call raised (`none` = success, `some e` = it raised `e`). -/
def step (ev : Event) (outcome : Option String) : Block :=
  ([ev], outcome)

/-- `try: c` / `except Exception: <log>` — run `c`; if it raises, emit the
log events and swallow the exception.  This is the pattern of each cleanup
step in `get_session`'s `finally` block and of its rollback attempt. -/
def pyCatchLog (c : Block) (logEvs : List Event) : Block :=
  match c with
  | (evs, none) => (evs, none)
  | (evs, some _) => (evs ++ logEvs, none)

/-- `try: body` / `finally: fin` — `fin` always runs; an exception escaping
`fin` replaces the in-flight one, otherwise the body's outcome stands. -/
def pyTryFinally (body fin : Block) : Block :=
  match fin with
  | (fevs, none) => (body.1 ++ fevs, body.2)
  | (fevs, some e) => (body.1 ++ fevs, some e)

/-- Outcomes of the fallible steps inside one invocation of `get_session`:
`none` means the step succeeds, `some e` that it raises exception `e`. -/
structure SessionEnv where
  /-- `await session.execute(text("SELECT 1"))` — the connectivity check. -/
  connectCheck : Option String
  /-- the caller's code running at the `yield session` point -/
  bodyRun : Option String
  /-- `await session.rollback()` -/
  rollbackStep : Option String
  /-- `await session.close()` -/
  closeStep : Option String
  /-- `await engine.dispose()` -/
  disposeStep : Option String

/-- `get_session` (database.py lines 89–132): create an engine and a
session; `try:` run the connectivity check, then yield to the body;
`except Exception as e:` log the error, attempt a rollback whose own
failure is logged and swallowed, and re-raise `e`; `finally:` close the
session and dispose the engine, each inside its own `try/except` that logs
and swallows. -/
def runGetSession (env : SessionEnv) : Block :=
  let tryBody : Block :=
    pyThen (step Event.execCheck env.connectCheck) (step Event.runBody env.bodyRun)
  let guarded : Block :=
    match tryBody with
    | (evs, none) => (evs, none)
    | (evs, some e) =>
      pyThen (evs, none)
        (pyThen ([Event.logSessionError], none)
          (pyThen (pyCatchLog (step Event.rollback env.rollbackStep) [Event.logRollbackError])
            ([], some e)))
  let cleanup : Block :=
    pyThen (pyCatchLog (step Event.close env.closeStep) [Event.logCloseError])
      (pyCatchLog (step Event.dispose env.disposeStep) [Event.logDisposeError])
  pyThen (step Event.createEngine none)
    (pyThen (step Event.createSession none) (pyTryFinally guarded cleanup))

/-- Outcome of the schema-creation step
(`conn.run_sync(Base.metadata.create_all)`) inside `init_db`. -/
structure InitDbEnv where
  createAllStep : Option String

/-- `init_db` (database.py lines 135–157): inside `try`, create the
engine, run the schema creation in an `engine.begin()` scope, dispose the
engine and log success; `except Exception`: log the failure and `raise`.
`engine.dispose()` sits inside the `try` block after the schema step, so a
schema failure skips it. -/
def runInitDb (env : InitDbEnv) : Block :=
  let tryBody : Block :=
    pyThen (step Event.createEngine none)
      (pyThen (step Event.createAll env.createAllStep)
        (pyThen (step Event.dispose none) ([Event.logInitSuccess], none)))
  match tryBody with
  | (evs, none) => (evs, none)
  | (evs, some e) => (evs ++ [Event.logInitError], some e)

/-- The `connect_args` dictionary `create_engine` (database.py lines
66–86) passes to the engine constructor:
`{"check_same_thread": False} if "sqlite" in DATABASE_URL else {}`. -/
def createEngineConnectArgs (databaseUrl : String) : List (String × Bool) :=
  if containsSubstring databaseUrl "sqlite" then
    [("check_same_thread", false)]
  else
    []

end Database

namespace ResetMachine

/-- A hexadecimal digit character, lowercase (`0`–`9`, `a`–`f`), as used by
Python's `hexdigest`. -/
def hexChar (d : Nat) : Char :=
  if d < 10 then Char.ofNat (48 + d) else Char.ofNat (87 + d)

/-- Render one byte as two lowercase hexadecimal characters. -/
def byteToHex (b : Nat) : List Char :=
  [hexChar (b / 16 % 16), hexChar (b % 16)]

/-- Python's `hashlib.…(…).hexdigest()`: the digest bytes rendered as a
lowercase hexadecimal string (two characters per byte). -/
def hexdigest (digest : List Nat) : String :=
  String.mk ((digest.map byteToHex).flatten)

/-- Python's `str.upper()` restricted to the ASCII strings at play. -/
def pyUpper (s : String) : String :=
  String.mk (s.toList.map Char.toUpper)

/-- `uuid.uuid4()` on the 16 random bytes drawn by `os.urandom`: force the
version nibble (high nibble of byte 6 becomes `4`) and the variant bits
(top two bits of byte 8 become `10`), per RFC 4122 as implemented by
CPython's `uuid` module. -/
def uuid4Bytes : List Nat → List Nat
  | b0 :: b1 :: b2 :: b3 :: b4 :: b5 :: b6 :: b7 :: b8 :: rest =>
    b0 :: b1 :: b2 :: b3 :: b4 :: b5 :: (b6 % 16 + 64) :: b7 :: (b8 % 64 + 128) :: rest
  | l => l

/-- `str(uuid.uuid4())`: the 16 version/variant-adjusted bytes as 32
lowercase hex digits, with dashes after character groups of 8, 4, 4, 4. -/
def uuidStr (b : List Nat) : String :=
  let h := ((uuid4Bytes b).map byteToHex).flatten
  String.mk (h.take 8 ++ '-' :: ((h.drop 8).take 4 ++ '-' :: ((h.drop 12).take 4
    ++ '-' :: ((h.drop 16).take 4 ++ '-' :: h.drop 20))))

/-- The random draws one call of `generate_new_ids` consumes, at the
boundary of the Python standard library: the 16 random bytes inside each
`uuid.uuid4()` call, and the digests returned by `hashlib.sha256` /
`hashlib.sha512` on their `os.urandom` inputs.  `hashlib` is external
library code; only the digest lengths (32 and 64 bytes) matter here and
appear as hypotheses of the theorems. -/
structure RandomDraws where
  /-- `os.urandom(16)` inside `uuid.uuid4()` for `dev_device_id` -/
  uuidBytes1 : List Nat
  /-- `hashlib.sha256(os.urandom(32)).digest()` (32 bytes) -/
  sha256Digest : List Nat
  /-- `hashlib.sha512(os.urandom(64)).digest()` (64 bytes) -/
  sha512Digest : List Nat
  /-- `os.urandom(16)` inside `uuid.uuid4()` for `sqm_id` -/
  uuidBytes2 : List Nat

/-- `generate_new_ids` (reset_machine.py lines 46–71): the returned Python
dictionary, in the source's literal order. -/
def generate_new_ids (r : RandomDraws) : List (String × JVal) :=
  let dev_device_id := uuidStr r.uuidBytes1
  let machine_id := hexdigest r.sha256Digest
  let mac_machine_id := hexdigest r.sha512Digest
  let sqm_id := "\x7b" ++ pyUpper (uuidStr r.uuidBytes2) ++ "\x7d"
  [("telemetry.devDeviceId", JVal.jstr dev_device_id),
   ("telemetry.macMachineId", JVal.jstr mac_machine_id),
   ("telemetry.machineId", JVal.jstr machine_id),
   ("telemetry.sqmId", JVal.jstr sqm_id)]

/-- A Python exception as relevant to `reset_machine_ids`, split by which
`except` clause of the source catches it. -/
inductive PyExc where
  | permissionError (msg : String)
  | otherError (msg : String)

/-- The console messages `reset_machine_ids` prints, one tag per `print`
call of the source. -/
inductive Msg where
  | infoCheckingConfig
  | errorFileMissing
  | errorNoReadWrite
  | errorReadOnlyHint
  | infoReadingConfig
  | infoGeneratingIds
  | infoSavingConfig
  | successReset
  | showNewIds
  | errorPermission
  | infoRunAsAdmin
  | errorGeneric
deriving DecidableEq

/-- The filesystem facts one invocation of `reset_machine_ids` observes:
whether the configuration file exists, whether `os.access` grants read and
write permission, what `json.load` yields on its content (`none` models a
`json.JSONDecodeError`), and the outcome of the write step
(`open(..., "w")` plus `json.dump`; `none` = success). -/
structure ConfigFile where
  fileExists : Bool
  accessReadWrite : Bool
  loaded : Option JVal
  writeStep : Option PyExc

/-- One run of the `try` body of `reset_machine_ids` (reset_machine.py
lines 78–122): the messages it printed, the object written back to disk
(when the write completed), and its return value or escaping exception. -/
structure ResetRun where
  msgs : List Msg
  written : Option (List (String × JVal))
  outcome : Except PyExc Bool

/-- The `try` body of `reset_machine_ids`: existence check, permission
check, `json.load`, `generate_new_ids`, `config.update(new_ids)`, and the
write.  A parse failure raises `json.JSONDecodeError` and calling `update`
on a non-dictionary raises `AttributeError`, both before the write step is
reached. -/
def reset_machine_ids_body (fs : ConfigFile) (r : RandomDraws) : ResetRun :=
  if !fs.fileExists then
    { msgs := [Msg.infoCheckingConfig, Msg.errorFileMissing],
      written := none, outcome := Except.ok false }
  else if !fs.accessReadWrite then
    { msgs := [Msg.infoCheckingConfig, Msg.errorNoReadWrite, Msg.errorReadOnlyHint],
      written := none, outcome := Except.ok false }
  else
    match fs.loaded with
    | none =>
      { msgs := [Msg.infoCheckingConfig, Msg.infoReadingConfig],
        written := none,
        outcome := Except.error (PyExc.otherError "json.JSONDecodeError") }
    | some (JVal.jobj config) =>
      match fs.writeStep with
      | some e =>
        { msgs := [Msg.infoCheckingConfig, Msg.infoReadingConfig,
            Msg.infoGeneratingIds, Msg.infoSavingConfig],
          written := none, outcome := Except.error e }
      | none =>
        { msgs := [Msg.infoCheckingConfig, Msg.infoReadingConfig,
            Msg.infoGeneratingIds, Msg.infoSavingConfig, Msg.successReset,
            Msg.showNewIds],
          written := some (dictUpdate config (generate_new_ids r)),
          outcome := Except.ok true }
    | some _ =>
      { msgs := [Msg.infoCheckingConfig, Msg.infoReadingConfig, Msg.infoGeneratingIds],
        written := none,
        outcome := Except.error (PyExc.otherError
          "AttributeError: object has no attribute update") }

/-- `reset_machine_ids` (reset_machine.py lines 73–134): the `try` body
wrapped in `except PermissionError` (prints the permission message plus the
run-as-administrator hint, returns `False`) and `except Exception` (prints
the generic error, returns `False`); no exception propagates past the
call.  Result: printed messages, the object written (if any), and the
boolean return value. -/
def reset_machine_ids (fs : ConfigFile) (r : RandomDraws) :
    List Msg × Option (List (String × JVal)) × Bool :=
  match reset_machine_ids_body fs r with
  | { msgs := ms, written := w, outcome := Except.ok b } => (ms, w, b)
  | { msgs := ms, written := w, outcome := Except.error (PyExc.permissionError _) } =>
    (ms ++ [Msg.errorPermission, Msg.infoRunAsAdmin], w, false)
  | { msgs := ms, written := w, outcome := Except.error (PyExc.otherError _) } =>
    (ms ++ [Msg.errorGeneric], w, false)

end ResetMachine

/-- A lowercase hexadecimal digit character (`0`–`9` or `a`–`f`), the
alphabet of Python's `hexdigest` output. -/
def isLowerHex (c : Char) : Bool :=
  (48 ≤ c.toNat && c.toNat ≤ 57) || (97 ≤ c.toNat && c.toNat ≤ 102)

/-- Canonical textual form of a version-4 RFC 4122 UUID as printed by
Python's `str(uuid.uuid4())`: five lowercase-hex groups of sizes
8-4-4-4-12 joined by dashes, version digit `4`, variant digit in
`8`/`9`/`a`/`b`. -/
def IsUuid4String (s : String) : Prop :=
  ∃ g1 g2 g3 g4 g5 : List Char,
    s.toList = g1 ++ '-' :: (g2 ++ '-' :: (g3 ++ '-' :: (g4 ++ '-' :: g5))) ∧
    g1.length = 8 ∧ g2.length = 4 ∧ g3.length = 4 ∧ g4.length = 4 ∧ g5.length = 12 ∧
    (∀ c ∈ g1 ++ g2 ++ g3 ++ g4 ++ g5, isLowerHex c = true) ∧
    g3.head? = some '4' ∧
    (∃ c, g4.head? = some c ∧ (c = '8' ∨ c = '9' ∨ c = 'a' ∨ c = 'b'))

/-! ## Helper lemmas -/

theorem startsWithChars_iff (p l : List Char) :
    startsWithChars p l = true ↔ ∃ t, l = p ++ t := by
  induction p generalizing l with
  | nil => simp [startsWithChars]
  | cons a ps ih =>
    cases l with
    | nil => simp [startsWithChars]
    | cons c cs =>
      simp only [startsWithChars, Bool.and_eq_true, decide_eq_true_eq, ih, List.cons_append]
      constructor
      · rintro ⟨rfl, t, rfl⟩
        exact ⟨t, rfl⟩
      · rintro ⟨t, ht⟩
        injection ht with h1 h2
        exact ⟨h1.symm, t, h2⟩

theorem containsSubstringAux_iff (p l : List Char) :
    containsSubstringAux p l = true ↔ ∃ pre post, l = pre ++ p ++ post := by
  induction l with
  | nil =>
    rw [containsSubstringAux, startsWithChars_iff]
    constructor
    · rintro ⟨t, ht⟩
      exact ⟨[], t, by simpa using ht⟩
    · rintro ⟨pre, post, h⟩
      obtain ⟨h1, h2⟩ := List.append_eq_nil.mp h.symm
      obtain ⟨h3, h4⟩ := List.append_eq_nil.mp h1
      exact ⟨[], by simp [h4]⟩
  | cons c cs ih =>
    simp only [containsSubstringAux, Bool.or_eq_true, startsWithChars_iff, ih]
    constructor
    · rintro (⟨t, ht⟩ | ⟨pre, post, h⟩)
      · exact ⟨[], t, by simpa using ht⟩
      · exact ⟨c :: pre, post, by simp [h]⟩
    · rintro ⟨pre, post, h⟩
      cases pre with
      | nil => exact Or.inl ⟨post, by simpa using h⟩
      | cons a pre =>
        rw [List.cons_append, List.cons_append] at h
        injection h with h1 h2
        exact Or.inr ⟨pre, post, h2⟩

theorem containsSubstring_iff (s pat : String) :
    containsSubstring s pat = true ↔
      ∃ pre post, s.toList = pre ++ pat.toList ++ post := by
  rw [containsSubstring]
  exact containsSubstringAux_iff pat.toList s.toList

theorem close_mem_runGetSession (env : Database.SessionEnv) :
    Database.Event.close ∈ (Database.runGetSession env).1 := by
  rcases env with ⟨cc, br, rb, cl, dp⟩
  cases cc <;> cases br <;> cases rb <;> cases cl <;> cases dp <;>
    simp [Database.runGetSession, Database.pyThen, Database.step,
      Database.pyCatchLog, Database.pyTryFinally]

theorem dispose_mem_runGetSession (env : Database.SessionEnv) :
    Database.Event.dispose ∈ (Database.runGetSession env).1 := by
  rcases env with ⟨cc, br, rb, cl, dp⟩
  cases cc <;> cases br <;> cases rb <;> cases cl <;> cases dp <;>
    simp [Database.runGetSession, Database.pyThen, Database.step,
      Database.pyCatchLog, Database.pyTryFinally]

theorem runGetSession_outcome (env : Database.SessionEnv) :
    (Database.runGetSession env).2 =
      (match env.connectCheck with
       | some e => some e
       | none => env.bodyRun) := by
  rcases env with ⟨cc, br, rb, cl, dp⟩
  cases cc <;> cases br <;> cases rb <;> cases cl <;> cases dp <;>
    simp [Database.runGetSession, Database.pyThen, Database.step,
      Database.pyCatchLog, Database.pyTryFinally]

theorem dictGet_eq_none_iff {α : Type} (d : List (String × α)) (k : String) :
    dictGet d k = none ↔ d.any (fun p => p.1 = k) = false := by
  simp [dictGet, List.find?_eq_none, List.any_eq_false]

theorem any_eq_true_of_dictGet_eq_some {α : Type} {d : List (String × α)} {k : String}
    {v : α} (h : dictGet d k = some v) : d.any (fun p => p.1 = k) = true := by
  by_contra hc
  have hfalse : d.any (fun p => p.1 = k) = false := by
    cases hval : d.any (fun p => p.1 = k)
    · rfl
    · exact absurd hval hc
  rw [(dictGet_eq_none_iff d k).mpr hfalse] at h
  exact Option.noConfusion h

theorem dictGet_setKey_same {α : Type} (d : List (String × α)) (k : String) (v : α) :
    dictGet (setKey d k v) k = some v := by
  induction d with
  | nil => simp [setKey, dictGet, List.find?]
  | cons p t ih =>
    obtain ⟨a, b⟩ := p
    by_cases h : a = k
    · subst h
      simp [setKey, dictGet, List.find?]
    · simpa [setKey, h, dictGet, List.find?] using ih

theorem dictGet_setKey_of_ne {α : Type} (d : List (String × α)) (k k' : String) (v : α)
    (h : k' ≠ k) : dictGet (setKey d k v) k' = dictGet d k' := by
  induction d with
  | nil => simp [setKey, dictGet, List.find?, Ne.symm h]
  | cons p t ih =>
    obtain ⟨a, b⟩ := p
    by_cases hak : a = k
    · subst hak
      simp [setKey, dictGet, List.find?, Ne.symm h]
    · by_cases hak' : a = k'
      · subst hak'
        simp [setKey, hak, dictGet, List.find?]
      · simpa [setKey, hak, hak', dictGet, List.find?] using ih

theorem isLowerHex_hexChar (d : Nat) (h : d < 16) :
    isLowerHex (ResetMachine.hexChar d) = true := by
  interval_cases d <;> decide

theorem mem_flatten_byteToHex (bs : List Nat) (c : Char)
    (h : c ∈ (bs.map ResetMachine.byteToHex).flatten) : isLowerHex c = true := by
  induction bs with
  | nil => simp at h
  | cons b t ih =>
    rw [List.map_cons, List.flatten_cons] at h
    rcases List.mem_append.mp h with h' | h'
    · simp only [ResetMachine.byteToHex, List.mem_cons, List.not_mem_nil, or_false] at h'
      rcases h' with rfl | rfl
      · exact isLowerHex_hexChar _ (by omega)
      · exact isLowerHex_hexChar _ (by omega)
    · exact ih h'

theorem length_flatten_byteToHex (bs : List Nat) :
    ((bs.map ResetMachine.byteToHex).flatten).length = 2 * bs.length := by
  induction bs with
  | nil => rfl
  | cons b t ih =>
    rw [List.map_cons, List.flatten_cons, List.length_append, ih, List.length_cons]
    simp [ResetMachine.byteToHex]
    omega

theorem length_uuid4Bytes (b : List Nat) :
    (ResetMachine.uuid4Bytes b).length = b.length := by
  unfold ResetMachine.uuid4Bytes
  split <;> simp

theorem hexdigest_length (bs : List Nat) :
    (ResetMachine.hexdigest bs).length = 2 * bs.length :=
  length_flatten_byteToHex bs

theorem uuidStr_length (b : List Nat) (hb : b.length = 16) :
    (ResetMachine.uuidStr b).length = 36 := by
  have h32 : ((ResetMachine.uuid4Bytes b).map ResetMachine.byteToHex).flatten.length = 32 := by
    rw [length_flatten_byteToHex, length_uuid4Bytes, hb]
  show (List.take 8 _ ++ '-' :: (_ ++ '-' :: (_ ++ '-' :: (_ ++ '-' :: _)))).length = 36
  simp [List.length_take, List.length_drop, h32]

theorem pyUpper_length (s : String) : (ResetMachine.pyUpper s).length = s.length := by
  show (s.toList.map Char.toUpper).length = s.length
  rw [List.length_map]
  simp

theorem length_succ_destruct {α : Type} (l : List α) (n : Nat) (h : l.length = n + 1) :
    ∃ a t, l = a :: t ∧ t.length = n := by
  cases l with
  | nil => simp at h
  | cons a t => exact ⟨a, t, rfl, by simpa using h⟩

theorem isUuid4String_uuidStr (b : List Nat) (hb : b.length = 16) :
    IsUuid4String (ResetMachine.uuidStr b) := by
  rcases b with _ | ⟨b0, b⟩
  · simp at hb
  rcases b with _ | ⟨b1, b⟩
  · simp at hb
  rcases b with _ | ⟨b2, b⟩
  · simp at hb
  rcases b with _ | ⟨b3, b⟩
  · simp at hb
  rcases b with _ | ⟨b4, b⟩
  · simp at hb
  rcases b with _ | ⟨b5, b⟩
  · simp at hb
  rcases b with _ | ⟨b6, b⟩
  · simp at hb
  rcases b with _ | ⟨b7, b⟩
  · simp at hb
  rcases b with _ | ⟨b8, b⟩
  · simp at hb
  rcases b with _ | ⟨b9, b⟩
  · simp at hb
  rcases b with _ | ⟨b10, b⟩
  · simp at hb
  rcases b with _ | ⟨b11, b⟩
  · simp at hb
  rcases b with _ | ⟨b12, b⟩
  · simp at hb
  rcases b with _ | ⟨b13, b⟩
  · simp at hb
  rcases b with _ | ⟨b14, b⟩
  · simp at hb
  rcases b with _ | ⟨b15, b⟩
  · simp at hb
  obtain rfl : b = [] := by simpa using hb
  refine ⟨_, _, _, _, _, rfl, rfl, rfl, rfl, rfl, rfl, ?_, ?_, ?_⟩
  · intro c hc
    have hch : c ∈ ((ResetMachine.uuid4Bytes
        [b0, b1, b2, b3, b4, b5, b6, b7, b8, b9, b10, b11, b12, b13, b14, b15]).map
        ResetMachine.byteToHex).flatten := by
      rcases List.mem_append.mp hc with h' | h5
      · rcases List.mem_append.mp h' with h'' | h4
        · rcases List.mem_append.mp h'' with h''' | h3
          · rcases List.mem_append.mp h''' with hg1 | h2
            · exact List.mem_of_mem_take hg1
            · exact List.mem_of_mem_drop (List.mem_of_mem_take h2)
          · exact List.mem_of_mem_drop (List.mem_of_mem_take h3)
        · exact List.mem_of_mem_drop (List.mem_of_mem_take h4)
      · exact List.mem_of_mem_drop h5
    exact mem_flatten_byteToHex _ _ hch
  · show some (ResetMachine.hexChar ((b6 % 16 + 64) / 16 % 16)) = some '4'
    have h4 : (b6 % 16 + 64) / 16 % 16 = 4 := by omega
    rw [h4]
    decide
  · refine ⟨ResetMachine.hexChar ((b8 % 64 + 128) / 16 % 16), rfl, ?_⟩
    have hv : (b8 % 64 + 128) / 16 % 16 = 8 ∨ (b8 % 64 + 128) / 16 % 16 = 9 ∨
        (b8 % 64 + 128) / 16 % 16 = 10 ∨ (b8 % 64 + 128) / 16 % 16 = 11 := by omega
    rcases hv with hv | hv | hv | hv <;> rw [hv] <;> decide

theorem stringNeOfLengthNe {s t : String} (h : s.length ≠ t.length) : s ≠ t :=
  fun he => h (he ▸ rfl)

theorem reset_machine_ids_eq (fs : ResetMachine.ConfigFile) (r : ResetMachine.RandomDraws) :
    ResetMachine.reset_machine_ids fs r =
      ((match (ResetMachine.reset_machine_ids_body fs r).outcome with
        | Except.ok _ => (ResetMachine.reset_machine_ids_body fs r).msgs
        | Except.error (ResetMachine.PyExc.permissionError _) =>
          (ResetMachine.reset_machine_ids_body fs r).msgs ++
            [ResetMachine.Msg.errorPermission, ResetMachine.Msg.infoRunAsAdmin]
        | Except.error (ResetMachine.PyExc.otherError _) =>
          (ResetMachine.reset_machine_ids_body fs r).msgs ++
            [ResetMachine.Msg.errorGeneric]),
       (ResetMachine.reset_machine_ids_body fs r).written,
       (match (ResetMachine.reset_machine_ids_body fs r).outcome with
        | Except.ok b => b
        | Except.error _ => false)) := by
  unfold ResetMachine.reset_machine_ids
  rcases hw : ResetMachine.reset_machine_ids_body fs r with ⟨ms, w, oc⟩
  rcases oc with e | b
  · rcases e with m | m <;> simp
  · simp

/-! ## Claim theorems -/

/-- **C2.** For every body executed inside the `get_session` scoped helper,
whether the body returns normally or raises, the session is closed and the
engine is disposed before the helper exits; an error raised by either
cleanup step is logged and swallowed independently — the helper's outcome
is exactly the outcome of the guarded scope no matter how the cleanup
steps fare, and `close` appears in the trace alongside `dispose` for every
combination of cleanup failures. -/
theorem get_session_cleanup_spec (env : Database.SessionEnv) :
    Database.Event.close ∈ (Database.runGetSession env).1 ∧
    Database.Event.dispose ∈ (Database.runGetSession env).1 ∧
    (Database.runGetSession env).2 =
      (match env.connectCheck with
       | some e => some e
       | none => env.bodyRun) ∧
    (∀ e, env.closeStep = some e →
      Database.Event.logCloseError ∈ (Database.runGetSession env).1) ∧
    (∀ e, env.disposeStep = some e →
      Database.Event.logDisposeError ∈ (Database.runGetSession env).1) := by
  refine ⟨close_mem_runGetSession env, dispose_mem_runGetSession env,
    runGetSession_outcome env, ?_, ?_⟩ <;>
  · intro e he
    rcases env with ⟨cc, br, rb, cl, dp⟩
    subst he
    cases cc <;> cases br <;> cases rb <;> first
      | (cases dp <;>
          simp [Database.runGetSession, Database.pyThen, Database.step,
            Database.pyCatchLog, Database.pyTryFinally])
      | (cases cl <;>
          simp [Database.runGetSession, Database.pyThen, Database.step,
            Database.pyCatchLog, Database.pyTryFinally])

/-- Witness for C2 at a concrete environment: the body raises and both
cleanup steps fail. -/
theorem get_session_cleanup_spec_witness :
    Database.Event.close ∈
      (Database.runGetSession ⟨none, some "boom", none, some "cf", some "df"⟩).1 ∧
    Database.Event.dispose ∈
      (Database.runGetSession ⟨none, some "boom", none, some "cf", some "df"⟩).1 ∧
    (Database.runGetSession ⟨none, some "boom", none, some "cf", some "df"⟩).2 =
      (match (none : Option String) with
       | some e => some e
       | none => some "boom") ∧
    (∀ e, (some "cf" : Option String) = some e →
      Database.Event.logCloseError ∈
        (Database.runGetSession ⟨none, some "boom", none, some "cf", some "df"⟩).1) ∧
    (∀ e, (some "df" : Option String) = some e →
      Database.Event.logDisposeError ∈
        (Database.runGetSession ⟨none, some "boom", none, some "cf", some "df"⟩).1) :=
  get_session_cleanup_spec ⟨none, some "boom", none, some "cf", some "df"⟩

/-- **C6.** For every exception raised inside `get_session`'s scope
(connectivity check or body), the helper logs the error, attempts a
rollback whose own failure is logged but not re-raised, and re-raises the
original exception — never the rollback error. -/
theorem get_session_reraises_original (env : Database.SessionEnv) (e : String)
    (h : env.connectCheck = some e ∨ (env.connectCheck = none ∧ env.bodyRun = some e)) :
    (Database.runGetSession env).2 = some e ∧
    Database.Event.logSessionError ∈ (Database.runGetSession env).1 ∧
    Database.Event.rollback ∈ (Database.runGetSession env).1 ∧
    (∀ re, env.rollbackStep = some re →
      Database.Event.logRollbackError ∈ (Database.runGetSession env).1 ∧
      (Database.runGetSession env).2 = some e) := by
  rcases env with ⟨cc, br, rb, cl, dp⟩
  rcases h with h | ⟨h1, h2⟩
  · subst h
    cases br <;> cases rb <;> cases cl <;> cases dp <;>
      simp [Database.runGetSession, Database.pyThen, Database.step,
        Database.pyCatchLog, Database.pyTryFinally]
  · subst h1; subst h2
    cases rb <;> cases cl <;> cases dp <;>
      simp [Database.runGetSession, Database.pyThen, Database.step,
        Database.pyCatchLog, Database.pyTryFinally]

/-- Witness for C6: the body raises `"boom"` and the rollback itself fails
with `"rbfail"`; the helper still re-raises `"boom"`. -/
theorem get_session_reraises_original_witness :
    (Database.runGetSession ⟨none, some "boom", some "rbfail", none, none⟩).2 = some "boom" ∧
    Database.Event.logSessionError ∈
      (Database.runGetSession ⟨none, some "boom", some "rbfail", none, none⟩).1 ∧
    Database.Event.rollback ∈
      (Database.runGetSession ⟨none, some "boom", some "rbfail", none, none⟩).1 ∧
    (∀ re, (some "rbfail" : Option String) = some re →
      Database.Event.logRollbackError ∈
        (Database.runGetSession ⟨none, some "boom", some "rbfail", none, none⟩).1 ∧
      (Database.runGetSession ⟨none, some "boom", some "rbfail", none, none⟩).2 =
        some "boom") :=
  get_session_reraises_original ⟨none, some "boom", some "rbfail", none, none⟩ "boom"
    (Or.inr ⟨rfl, rfl⟩)

/-- **C9.** If the schema-creation step inside `init_db` raises, `init_db`
logs the error and re-raises it without ever disposing the engine — in
contrast to `get_session`, which disposes its engine on every exit path. -/
theorem init_db_error_path_spec (env : Database.InitDbEnv) (e : String)
    (h : env.createAllStep = some e) :
    (Database.runInitDb env).2 = some e ∧
    Database.Event.logInitError ∈ (Database.runInitDb env).1 ∧
    Database.Event.dispose ∉ (Database.runInitDb env).1 ∧
    (∀ senv : Database.SessionEnv,
      Database.Event.dispose ∈ (Database.runGetSession senv).1) := by
  rcases env with ⟨ca⟩
  subst h
  refine ⟨?_, ?_, ?_, fun senv => dispose_mem_runGetSession senv⟩ <;>
    simp [Database.runInitDb, Database.pyThen, Database.step]

/-- Witness for C9: the schema step fails with `"boom"`. -/
theorem init_db_error_path_spec_witness :
    (Database.runInitDb ⟨some "boom"⟩).2 = some "boom" ∧
    Database.Event.logInitError ∈ (Database.runInitDb ⟨some "boom"⟩).1 ∧
    Database.Event.dispose ∉ (Database.runInitDb ⟨some "boom"⟩).1 ∧
    (∀ senv : Database.SessionEnv,
      Database.Event.dispose ∈ (Database.runGetSession senv).1) :=
  init_db_error_path_spec ⟨some "boom"⟩ "boom" rfl

/-- **C7.** `create_engine` passes the `check_same_thread=False` connect
argument exactly when the configured connection string contains the
substring `"sqlite"` (the indicator of the file-based embedded database
family), and passes no extra connect arguments for every other connection
string. -/
theorem create_engine_connect_args_spec (url : String) :
    (Database.createEngineConnectArgs url = [("check_same_thread", false)] ↔
      ∃ pre post, url.toList = pre ++ "sqlite".toList ++ post) ∧
    ((¬ ∃ pre post, url.toList = pre ++ "sqlite".toList ++ post) →
      Database.createEngineConnectArgs url = []) := by
  have h := containsSubstring_iff url "sqlite"
  constructor
  · constructor
    · intro hargs
      by_cases hc : containsSubstring url "sqlite" = true
      · exact h.mp hc
      · simp [Database.createEngineConnectArgs, hc] at hargs
    · intro hex
      have hc := h.mpr hex
      simp [Database.createEngineConnectArgs, hc]
  · intro hnex
    have hc : containsSubstring url "sqlite" = false := by
      by_contra hcc
      exact hnex (h.mp (by simpa using hcc))
    simp [Database.createEngineConnectArgs, hc]

/-- Witness for C7: a sqlite connection string gets the flag; the
decomposition hypothesis is discharged with an explicit split of
`"sqlite+aiosqlite:///data.db"`. -/
theorem create_engine_connect_args_spec_witness :
    Database.createEngineConnectArgs "sqlite+aiosqlite:///data.db" =
      [("check_same_thread", false)] :=
  (create_engine_connect_args_spec "sqlite+aiosqlite:///data.db").1.mpr
    ⟨[], "+aiosqlite:///data.db".toList, by decide⟩

/-- **C8.** Both remote client operations send the credential as the
session cookie `WorkosCursorSessionToken` whose value is composed from the
user identifier and the token as `{user}::{token}` URL-encoded (each `':'`
percent-encoded, yielding `%3A%3A` between user and token). -/
theorem session_cookie_spec (user token : String) :
    dictGet (Cursor.usageRequestHeaders user token) "Cookie" =
      some (Cursor.sessionCookie user token) ∧
    dictGet (Cursor.stripeRequestHeaders user token) "Cookie" =
      some (Cursor.sessionCookie user token) ∧
    Cursor.sessionCookie user token =
      "WorkosCursorSessionToken=" ++ user ++
        (Cursor.percentEncodeChar ':' ++ Cursor.percentEncodeChar ':') ++ token := by
  refine ⟨?_, ?_, ?_⟩
  · simp [dictGet, Cursor.usageRequestHeaders]
  · simp [dictGet, Cursor.stripeRequestHeaders]
  · have henc : Cursor.percentEncodeChar ':' ++ Cursor.percentEncodeChar ':' = "%3A%3A" := rfl
    rw [henc, Cursor.sessionCookie]

/-- **C1.** For every JSON response body, `get_remaining_balance` returns
`None` when the `"gpt-4"` usage sub-object is absent (or JSON `null`) or
either of its keys `"maxRequestUsage"` / `"numRequests"` is absent, and
otherwise returns `maxRequestUsage - numRequests` as a plain integer
difference — no clamping, so the result may be negative. -/
theorem get_remaining_balance_spec (d : List (String × JVal)) :
    ((dictGet d "gpt-4" = none ∨ dictGet d "gpt-4" = some JVal.jnull) →
      Cursor.get_remaining_balance (JVal.jobj d) = Except.ok none) ∧
    (∀ usage, dictGet d "gpt-4" = some (JVal.jobj usage) →
      ((dictGet usage "maxRequestUsage" = none ∨ dictGet usage "numRequests" = none) →
        Cursor.get_remaining_balance (JVal.jobj d) = Except.ok none) ∧
      (∀ m n, dictGet usage "maxRequestUsage" = some (JVal.jnum m) →
        dictGet usage "numRequests" = some (JVal.jnum n) →
        Cursor.get_remaining_balance (JVal.jobj d) = Except.ok (some (m - n)))) := by
  constructor
  · rintro (hg | hg) <;> simp [Cursor.get_remaining_balance, hg]
  · intro usage hg
    constructor
    · rintro (hk | hk)
      · have ha := (dictGet_eq_none_iff usage "maxRequestUsage").mp hk
        simp [Cursor.get_remaining_balance, hg, pyIn, ha]
      · have ha := (dictGet_eq_none_iff usage "numRequests").mp hk
        cases hm : usage.any (fun p => p.1 = "maxRequestUsage") <;>
          simp [Cursor.get_remaining_balance, hg, pyIn, ha, hm]
    · intro m n hm hn
      have ham := any_eq_true_of_dictGet_eq_some hm
      have han := any_eq_true_of_dictGet_eq_some hn
      simp [Cursor.get_remaining_balance, hg, pyIn, ham, han, hm, hn, pySub]

/-- Witness for C1: a usage object with `maxRequestUsage = 100` and
`numRequests = 150` yields the unclamped, negative difference `-50`. -/
theorem get_remaining_balance_spec_witness :
    Cursor.get_remaining_balance (JVal.jobj
      [("gpt-4", JVal.jobj
        [("maxRequestUsage", JVal.jnum 100), ("numRequests", JVal.jnum 150)])]) =
      Except.ok (some (100 - 150)) :=
  ((get_remaining_balance_spec
      [("gpt-4", JVal.jobj
        [("maxRequestUsage", JVal.jnum 100), ("numRequests", JVal.jnum 150)])]).2
    [("maxRequestUsage", JVal.jnum 100), ("numRequests", JVal.jnum 150)] rfl).2
    100 150 rfl rfl

/-- **C3.** For every JSON object loaded from the configuration file, a
successful `reset_machine_ids` writes back an object holding the four
freshly generated telemetry values, and every key not among the four
telemetry keys maps to its original value unchanged. -/
theorem reset_machine_ids_frame (fs : ResetMachine.ConfigFile)
    (r : ResetMachine.RandomDraws) (config : List (String × JVal))
    (hex : fs.fileExists = true) (hacc : fs.accessReadWrite = true)
    (hload : fs.loaded = some (JVal.jobj config))
    (hwr : fs.writeStep = none) :
    ∃ w, ResetMachine.reset_machine_ids fs r =
        ([ResetMachine.Msg.infoCheckingConfig, ResetMachine.Msg.infoReadingConfig,
          ResetMachine.Msg.infoGeneratingIds, ResetMachine.Msg.infoSavingConfig,
          ResetMachine.Msg.successReset, ResetMachine.Msg.showNewIds],
         some w, true) ∧
      (∀ k, k ≠ "telemetry.devDeviceId" → k ≠ "telemetry.macMachineId" →
        k ≠ "telemetry.machineId" → k ≠ "telemetry.sqmId" →
        dictGet w k = dictGet config k) ∧
      dictGet w "telemetry.devDeviceId" =
        some (JVal.jstr (ResetMachine.uuidStr r.uuidBytes1)) ∧
      dictGet w "telemetry.macMachineId" =
        some (JVal.jstr (ResetMachine.hexdigest r.sha512Digest)) ∧
      dictGet w "telemetry.machineId" =
        some (JVal.jstr (ResetMachine.hexdigest r.sha256Digest)) ∧
      dictGet w "telemetry.sqmId" =
        some (JVal.jstr
          ("\x7b" ++ ResetMachine.pyUpper (ResetMachine.uuidStr r.uuidBytes2) ++ "\x7d")) := by
  refine ⟨dictUpdate config (ResetMachine.generate_new_ids r), ?_, ?_, ?_, ?_, ?_, ?_⟩
  · simp [ResetMachine.reset_machine_ids, ResetMachine.reset_machine_ids_body,
      hex, hacc, hload, hwr]
  · intro k h1 h2 h3 h4
    simp only [dictUpdate, ResetMachine.generate_new_ids, List.foldl_cons, List.foldl_nil]
    rw [dictGet_setKey_of_ne _ _ _ _ h4, dictGet_setKey_of_ne _ _ _ _ h3,
      dictGet_setKey_of_ne _ _ _ _ h2, dictGet_setKey_of_ne _ _ _ _ h1]
  · simp only [dictUpdate, ResetMachine.generate_new_ids, List.foldl_cons, List.foldl_nil]
    rw [dictGet_setKey_of_ne _ _ _ _ (by decide), dictGet_setKey_of_ne _ _ _ _ (by decide),
      dictGet_setKey_of_ne _ _ _ _ (by decide), dictGet_setKey_same]
  · simp only [dictUpdate, ResetMachine.generate_new_ids, List.foldl_cons, List.foldl_nil]
    rw [dictGet_setKey_of_ne _ _ _ _ (by decide), dictGet_setKey_of_ne _ _ _ _ (by decide),
      dictGet_setKey_same]
  · simp only [dictUpdate, ResetMachine.generate_new_ids, List.foldl_cons, List.foldl_nil]
    rw [dictGet_setKey_of_ne _ _ _ _ (by decide), dictGet_setKey_same]
  · simp only [dictUpdate, ResetMachine.generate_new_ids, List.foldl_cons, List.foldl_nil]
    rw [dictGet_setKey_same]

/-- Witness for C3 at the spec's example object `{"a": 1,
"telemetry.machineId": "old"}` and concrete random draws. -/
theorem reset_machine_ids_frame_witness :
    ∃ w, ResetMachine.reset_machine_ids
        ⟨true, true, some (JVal.jobj
          [("a", JVal.jnum 1), ("telemetry.machineId", JVal.jstr "old")]), none⟩
        ⟨List.replicate 16 0, List.replicate 32 0, List.replicate 64 0,
          List.replicate 16 0⟩ =
        ([ResetMachine.Msg.infoCheckingConfig, ResetMachine.Msg.infoReadingConfig,
          ResetMachine.Msg.infoGeneratingIds, ResetMachine.Msg.infoSavingConfig,
          ResetMachine.Msg.successReset, ResetMachine.Msg.showNewIds],
         some w, true) ∧
      (∀ k, k ≠ "telemetry.devDeviceId" → k ≠ "telemetry.macMachineId" →
        k ≠ "telemetry.machineId" → k ≠ "telemetry.sqmId" →
        dictGet w k =
          dictGet [("a", JVal.jnum 1), ("telemetry.machineId", JVal.jstr "old")] k) ∧
      dictGet w "telemetry.devDeviceId" =
        some (JVal.jstr (ResetMachine.uuidStr (List.replicate 16 0))) ∧
      dictGet w "telemetry.macMachineId" =
        some (JVal.jstr (ResetMachine.hexdigest (List.replicate 64 0))) ∧
      dictGet w "telemetry.machineId" =
        some (JVal.jstr (ResetMachine.hexdigest (List.replicate 32 0))) ∧
      dictGet w "telemetry.sqmId" =
        some (JVal.jstr
          ("\x7b" ++ ResetMachine.pyUpper (ResetMachine.uuidStr (List.replicate 16 0))
            ++ "\x7d")) :=
  reset_machine_ids_frame
    ⟨true, true, some (JVal.jobj
      [("a", JVal.jnum 1), ("telemetry.machineId", JVal.jstr "old")]), none⟩
    ⟨List.replicate 16 0, List.replicate 32 0, List.replicate 64 0, List.replicate 16 0⟩
    [("a", JVal.jnum 1), ("telemetry.machineId", JVal.jstr "old")] rfl rfl rfl rfl

/-- **C4.** `reset_machine_ids` never raises past the top-level call: a
missing configuration file is reported and yields the failure indicator
with no write; insufficient read+write permission is reported (with the
read-only hint) and yields the failure indicator with no write; and any
exception the `try` body raises — a `PermissionError` or any other — is
reported by the matching handler and swallowed into a `false` return
rather than propagating. -/
theorem reset_machine_ids_no_raise (fs : ResetMachine.ConfigFile)
    (r : ResetMachine.RandomDraws) :
    (fs.fileExists = false →
      ResetMachine.reset_machine_ids fs r =
        ([ResetMachine.Msg.infoCheckingConfig, ResetMachine.Msg.errorFileMissing],
         none, false)) ∧
    (fs.fileExists = true → fs.accessReadWrite = false →
      ResetMachine.reset_machine_ids fs r =
        ([ResetMachine.Msg.infoCheckingConfig, ResetMachine.Msg.errorNoReadWrite,
          ResetMachine.Msg.errorReadOnlyHint], none, false)) ∧
    (∀ m, (ResetMachine.reset_machine_ids_body fs r).outcome =
        Except.error (ResetMachine.PyExc.permissionError m) →
      ResetMachine.reset_machine_ids fs r =
        ((ResetMachine.reset_machine_ids_body fs r).msgs ++
          [ResetMachine.Msg.errorPermission, ResetMachine.Msg.infoRunAsAdmin],
         (ResetMachine.reset_machine_ids_body fs r).written, false)) ∧
    (∀ m, (ResetMachine.reset_machine_ids_body fs r).outcome =
        Except.error (ResetMachine.PyExc.otherError m) →
      ResetMachine.reset_machine_ids fs r =
        ((ResetMachine.reset_machine_ids_body fs r).msgs ++
          [ResetMachine.Msg.errorGeneric],
         (ResetMachine.reset_machine_ids_body fs r).written, false)) := by
  refine ⟨?_, ?_, ?_, ?_⟩
  · intro hfe
    simp [ResetMachine.reset_machine_ids, ResetMachine.reset_machine_ids_body, hfe]
  · intro hfe har
    simp [ResetMachine.reset_machine_ids, ResetMachine.reset_machine_ids_body, hfe, har]
  · intro m hm
    rw [reset_machine_ids_eq fs r, hm]
  · intro m hm
    rw [reset_machine_ids_eq fs r, hm]

/-- Witness for C4: the write step raises a `PermissionError` (the file
turned read-only between the access check and the write); the call reports
it and returns the failure indicator instead of raising. -/
theorem reset_machine_ids_no_raise_witness :
    ResetMachine.reset_machine_ids
      ⟨true, true, some (JVal.jobj []),
        some (ResetMachine.PyExc.permissionError "denied")⟩ ⟨[], [], [], []⟩ =
      ((ResetMachine.reset_machine_ids_body
          ⟨true, true, some (JVal.jobj []),
            some (ResetMachine.PyExc.permissionError "denied")⟩ ⟨[], [], [], []⟩).msgs ++
        [ResetMachine.Msg.errorPermission, ResetMachine.Msg.infoRunAsAdmin],
       (ResetMachine.reset_machine_ids_body
          ⟨true, true, some (JVal.jobj []),
            some (ResetMachine.PyExc.permissionError "denied")⟩ ⟨[], [], [], []⟩).written,
       false) :=
  ((reset_machine_ids_no_raise
      ⟨true, true, some (JVal.jobj []),
        some (ResetMachine.PyExc.permissionError "denied")⟩
      ⟨[], [], [], []⟩).2.2.1) "denied" rfl

/-- **C10.** If the configuration file exists with read+write permission
but its content fails to parse as JSON, or parses to a value that is not a
JSON object, `reset_machine_ids` returns `false` and nothing is written:
the write step is only reached after a successful parse and merge. -/
theorem reset_machine_ids_bad_parse (fs : ResetMachine.ConfigFile)
    (r : ResetMachine.RandomDraws)
    (hex : fs.fileExists = true) (hacc : fs.accessReadWrite = true)
    (hbad : fs.loaded = none ∨
      ∃ v, fs.loaded = some v ∧ ∀ kvs, v ≠ JVal.jobj kvs) :
    (ResetMachine.reset_machine_ids fs r).2 = (none, false) ∧
    ResetMachine.Msg.errorGeneric ∈ (ResetMachine.reset_machine_ids fs r).1 ∧
    ResetMachine.Msg.infoSavingConfig ∉ (ResetMachine.reset_machine_ids fs r).1 := by
  rcases fs with ⟨fe, ar, lo, wr⟩
  cases hex
  cases hacc
  rcases hbad with h | ⟨v, hv, hno⟩
  · cases h
    simp [ResetMachine.reset_machine_ids, ResetMachine.reset_machine_ids_body]
  · cases hv
    cases v <;>
      simp [ResetMachine.reset_machine_ids, ResetMachine.reset_machine_ids_body]
    exact absurd rfl (hno _)

/-- **C5.** Every call to `generate_new_ids` returns a mapping with
exactly the four telemetry keys, whose values are: a canonical version-4
UUID string, the SHA-256 hex digest rendering of its 32-byte digest (64
lowercase hexadecimal characters), the SHA-512 hex digest rendering of its
64-byte digest (128 lowercase hexadecimal characters), and a brace-wrapped
uppercase UUID string; the four values produced in one call are pairwise
distinct. -/
theorem generate_new_ids_spec (r : ResetMachine.RandomDraws)
    (h1 : r.uuidBytes1.length = 16) (h2 : r.sha256Digest.length = 32)
    (h3 : r.sha512Digest.length = 64) (h4 : r.uuidBytes2.length = 16) :
    ResetMachine.generate_new_ids r =
      [("telemetry.devDeviceId", JVal.jstr (ResetMachine.uuidStr r.uuidBytes1)),
       ("telemetry.macMachineId", JVal.jstr (ResetMachine.hexdigest r.sha512Digest)),
       ("telemetry.machineId", JVal.jstr (ResetMachine.hexdigest r.sha256Digest)),
       ("telemetry.sqmId", JVal.jstr
         ("\x7b" ++ ResetMachine.pyUpper (ResetMachine.uuidStr r.uuidBytes2) ++ "\x7d"))] ∧
    IsUuid4String (ResetMachine.uuidStr r.uuidBytes1) ∧
    ((ResetMachine.hexdigest r.sha256Digest).length = 64 ∧
      ∀ c ∈ (ResetMachine.hexdigest r.sha256Digest).toList, isLowerHex c = true) ∧
    ((ResetMachine.hexdigest r.sha512Digest).length = 128 ∧
      ∀ c ∈ (ResetMachine.hexdigest r.sha512Digest).toList, isLowerHex c = true) ∧
    (IsUuid4String (ResetMachine.uuidStr r.uuidBytes2) ∧
      ("\x7b" ++ ResetMachine.pyUpper (ResetMachine.uuidStr r.uuidBytes2) ++ "\x7d").length
        = 38) ∧
    (ResetMachine.uuidStr r.uuidBytes1 ≠ ResetMachine.hexdigest r.sha256Digest ∧
     ResetMachine.uuidStr r.uuidBytes1 ≠ ResetMachine.hexdigest r.sha512Digest ∧
     ResetMachine.uuidStr r.uuidBytes1 ≠
       "\x7b" ++ ResetMachine.pyUpper (ResetMachine.uuidStr r.uuidBytes2) ++ "\x7d" ∧
     ResetMachine.hexdigest r.sha256Digest ≠ ResetMachine.hexdigest r.sha512Digest ∧
     ResetMachine.hexdigest r.sha256Digest ≠
       "\x7b" ++ ResetMachine.pyUpper (ResetMachine.uuidStr r.uuidBytes2) ++ "\x7d" ∧
     ResetMachine.hexdigest r.sha512Digest ≠
       "\x7b" ++ ResetMachine.pyUpper (ResetMachine.uuidStr r.uuidBytes2) ++ "\x7d") := by
  have l1 : (ResetMachine.uuidStr r.uuidBytes1).length = 36 := uuidStr_length _ h1
  have l256 : (ResetMachine.hexdigest r.sha256Digest).length = 64 := by
    rw [hexdigest_length, h2]
  have l512 : (ResetMachine.hexdigest r.sha512Digest).length = 128 := by
    rw [hexdigest_length, h3]
  have lsqm :
      ("\x7b" ++ ResetMachine.pyUpper (ResetMachine.uuidStr r.uuidBytes2) ++ "\x7d").length
        = 38 := by
    rw [String.length_append, String.length_append, pyUpper_length, uuidStr_length _ h4]
    decide
  refine ⟨rfl, isUuid4String_uuidStr _ h1, ⟨l256, ?_⟩, ⟨l512, ?_⟩,
    ⟨isUuid4String_uuidStr _ h4, lsqm⟩, ?_, ?_, ?_, ?_, ?_, ?_⟩
  · intro c hc
    exact mem_flatten_byteToHex _ _ hc
  · intro c hc
    exact mem_flatten_byteToHex _ _ hc
  · exact stringNeOfLengthNe (by rw [l1, l256]; decide)
  · exact stringNeOfLengthNe (by rw [l1, l512]; decide)
  · exact stringNeOfLengthNe (by rw [l1, lsqm]; decide)
  · exact stringNeOfLengthNe (by rw [l256, l512]; decide)
  · exact stringNeOfLengthNe (by rw [l256, lsqm]; decide)
  · exact stringNeOfLengthNe (by rw [l512, lsqm]; decide)

/-- Witness for C5 at concrete random draws (all-zero bytes of the correct
lengths). -/
theorem generate_new_ids_spec_witness :
    ResetMachine.generate_new_ids
      ⟨List.replicate 16 0, List.replicate 32 0, List.replicate 64 0,
        List.replicate 16 0⟩ =
      [("telemetry.devDeviceId", JVal.jstr (ResetMachine.uuidStr (List.replicate 16 0))),
       ("telemetry.macMachineId", JVal.jstr (ResetMachine.hexdigest (List.replicate 64 0))),
       ("telemetry.machineId", JVal.jstr (ResetMachine.hexdigest (List.replicate 32 0))),
       ("telemetry.sqmId", JVal.jstr
         ("\x7b" ++ ResetMachine.pyUpper (ResetMachine.uuidStr (List.replicate 16 0))
           ++ "\x7d"))] ∧
    IsUuid4String (ResetMachine.uuidStr (List.replicate 16 0)) ∧
    ((ResetMachine.hexdigest (List.replicate 32 0)).length = 64 ∧
      ∀ c ∈ (ResetMachine.hexdigest (List.replicate 32 0)).toList, isLowerHex c = true) ∧
    ((ResetMachine.hexdigest (List.replicate 64 0)).length = 128 ∧
      ∀ c ∈ (ResetMachine.hexdigest (List.replicate 64 0)).toList, isLowerHex c = true) ∧
    (IsUuid4String (ResetMachine.uuidStr (List.replicate 16 0)) ∧
      ("\x7b" ++ ResetMachine.pyUpper (ResetMachine.uuidStr (List.replicate 16 0))
        ++ "\x7d").length = 38) ∧
    (ResetMachine.uuidStr (List.replicate 16 0) ≠
       ResetMachine.hexdigest (List.replicate 32 0) ∧
     ResetMachine.uuidStr (List.replicate 16 0) ≠
       ResetMachine.hexdigest (List.replicate 64 0) ∧
     ResetMachine.uuidStr (List.replicate 16 0) ≠
       "\x7b" ++ ResetMachine.pyUpper (ResetMachine.uuidStr (List.replicate 16 0))
         ++ "\x7d" ∧
     ResetMachine.hexdigest (List.replicate 32 0) ≠
       ResetMachine.hexdigest (List.replicate 64 0) ∧
     ResetMachine.hexdigest (List.replicate 32 0) ≠
       "\x7b" ++ ResetMachine.pyUpper (ResetMachine.uuidStr (List.replicate 16 0))
         ++ "\x7d" ∧
     ResetMachine.hexdigest (List.replicate 64 0) ≠
       "\x7b" ++ ResetMachine.pyUpper (ResetMachine.uuidStr (List.replicate 16 0))
         ++ "\x7d") :=
  generate_new_ids_spec
    ⟨List.replicate 16 0, List.replicate 32 0, List.replicate 64 0, List.replicate 16 0⟩
    rfl rfl rfl rfl

/-- Witness for C10: the file parses to a JSON array, not an object; the
run fails, writes nothing, and never reaches the save step. -/
theorem reset_machine_ids_bad_parse_witness :
    (ResetMachine.reset_machine_ids ⟨true, true, some (JVal.jarr []), none⟩
        ⟨[], [], [], []⟩).2 = (none, false) ∧
    ResetMachine.Msg.errorGeneric ∈
      (ResetMachine.reset_machine_ids ⟨true, true, some (JVal.jarr []), none⟩
        ⟨[], [], [], []⟩).1 ∧
    ResetMachine.Msg.infoSavingConfig ∉
      (ResetMachine.reset_machine_ids ⟨true, true, some (JVal.jarr []), none⟩
        ⟨[], [], [], []⟩).1 :=
  reset_machine_ids_bad_parse ⟨true, true, some (JVal.jarr []), none⟩ ⟨[], [], [], []⟩
    rfl rfl (Or.inr ⟨JVal.jarr [], rfl, fun _ h => JVal.noConfusion h⟩)

end CursorAutoRegister
